import Mathlib

/-!
Shallow embedding of the asynchronous batch-job tracking subsystem of the
find-similar-companies admin console.

The two relevant source files are
`src/app/batch-progress/page.tsx` (the dedicated progress page, prefix `bp`)
and `src/app/enrichment/page.tsx` (the submission page with its inline
poller, prefix `en`).  Each page is modelled as a state record; the async
callbacks (`poll`, `submitBatch`, the elapsed-time tick, the unmount
cleanup) become state-transition functions.  JavaScript intervals are
modelled by natural-number timer ids: a page state carries the list of
live interval ids (`timers`), a fresh-id counter (`nextTimer`), and the
React refs (`pollingRef`, `timeRef`) exactly as the source keeps them.
`localStorage.getItem/removeItem` on the key `activeBatchId` is the
`store : Option String` field.  Network outcomes are passed to the
transition functions as explicit outcome values.
-/

set_option autoImplicit false

namespace BatchTracking

/-- Lifecycle states of a batch, from the `BatchStatus.status` union type in
both pages. -/
inductive Lifecycle
  | pending
  | processing
  | completed
  | completed_with_errors
  | error
deriving DecidableEq

/-- Terminal classification: the condition of the `if` in both `poll`
callbacks (`completed`, `completed_with_errors`, `error`). -/
def isTerminal : Lifecycle → Bool
  | .completed => true
  | .completed_with_errors => true
  | .error => true
  | .pending => false
  | .processing => false

/-- One status snapshot, from the `BatchStatus` interface shared by both
pages.  `progress_percent` is an `Int` since the backend may report any
number, including out-of-range ones. -/
structure BatchStatus where
  status : Lifecycle
  progress_percent : Int
  processed_domains : Nat
  total_domains : Nat
  similar_companies_found : Option Nat := none
  errorCount : Option Nat := none
deriving DecidableEq

/-- Outcome of one status request as the poll callbacks observe it:
either a parsed JSON body, or a thrown error (network failure, or — on the
batch-progress page — a non-ok HTTP status re-thrown as `HTTP <n>`). -/
inductive PollOutcome
  | ok (data : BatchStatus)
  | fail (err : String)
deriving DecidableEq

/-- JavaScript string truthiness for `string | null` values:
`null` and the empty string are falsy. -/
def truthyStr : Option String → Bool
  | none => false
  | some s => !(s == "")

/-- clearInterval on an optional ref: removes the referenced timer id
from the list of live timers. -/
def clearTimer (timers : List Nat) : Option Nat → List Nat
  | none => timers
  | some t => timers.erase t

/-- Elapsed-time formatting from `updateElapsed` in the batch-progress page:
`diff` whole seconds, below one minute rendered as seconds, otherwise
whole minutes with an `s` exactly when more than one.  Times are in
milliseconds. -/
def formatElapsed (startTime now : Nat) : String :=
  let diff := (now - startTime) / 1000
  if diff < 60 then
    toString diff ++ " seconds ago"
  else
    let minutes := diff / 60
    toString minutes ++ " minute" ++ (if minutes > 1 then "s" else "") ++ " ago"

/-! ## The batch-progress page (`src/app/batch-progress/page.tsx`) -/

/-- State of one mounted batch-progress page: the React state hooks
(`batchId`, `batchStatus`, `startTime`, `elapsedTime`, `error`), the two
interval refs, the live timers, the persisted store, the configured API
base URL, and a count of status requests actually issued. -/
structure BPState where
  batchId : Option String
  batchStatus : Option BatchStatus
  startTime : Nat
  elapsedTime : String
  error : Option String
  pollingRef : Option Nat
  timeRef : Option Nat
  timers : List Nat
  nextTimer : Nat
  store : Option String
  apiUrl : Option String
  statusRequests : Nat
deriving DecidableEq

/-- One run of `updateElapsed` at wall-clock time `now`. -/
def bpUpdateElapsed (s : BPState) (now : Nat) : BPState :=
  { s with elapsedTime := formatElapsed s.startTime now }

/-- The synchronous part of the batch-progress `startPolling`: allocate a
fresh interval and point `pollingRef` at it (`pollingRef.current =
setInterval(poll, 3000)`).  The immediate `poll()` call is asynchronous and
is applied as a separate `bpPoll` event. -/
def bpStartPolling (s : BPState) : BPState :=
  { s with pollingRef := some s.nextTimer,
           timers := s.nextTimer :: s.timers,
           nextTimer := s.nextTimer + 1 }

/-- One completed run of the batch-progress `poll` callback with outcome
`o`.  Mirrors the source: a missing API URL only sets an error and issues
no request; a parsed response replaces the snapshot and, when terminal,
clears the interval (if the ref holds one) and removes `activeBatchId`
from the store; a thrown fetch (network error or non-ok HTTP status) is
logged and sets the inline error message, touching nothing else. -/
def bpPoll (s : BPState) (o : PollOutcome) : BPState :=
  if s.apiUrl.isNone then
    { s with error := some "API URL not configured" }
  else
    match o with
    | .ok data =>
      let s1 := { s with statusRequests := s.statusRequests + 1,
                         batchStatus := some data }
      if isTerminal data.status then
        { s1 with timers := clearTimer s1.timers s1.pollingRef,
                  pollingRef := none,
                  store := none }
      else
        s1
    | .fail err =>
      { s with statusRequests := s.statusRequests + 1,
               error := some ("Failed to fetch batch status: " ++ err) }

/-- State after the batch-progress page mounts at time `mountTime` with the
given store contents and API URL: the cleanup effect registers, the load
effect reads `activeBatchId` and (when truthy) sets `batchId` and starts
polling, and the elapsed effect runs `updateElapsed` once and allocates the
one-second interval. -/
def bpMount (store apiUrl : Option String) (mountTime : Nat) : BPState :=
  let s0 : BPState :=
    { batchId := none, batchStatus := none, startTime := mountTime,
      elapsedTime := "", error := none, pollingRef := none, timeRef := none,
      timers := [], nextTimer := 0, store := store, apiUrl := apiUrl,
      statusRequests := 0 }
  let s1 :=
    match store with
    | some id => if id = "" then s0 else bpStartPolling { s0 with batchId := some id }
    | none => s0
  let s2 := bpUpdateElapsed s1 mountTime
  { s2 with timeRef := some s2.nextTimer,
            timers := s2.nextTimer :: s2.timers,
            nextTimer := s2.nextTimer + 1 }

/-- Page teardown: the unmount cleanups clear both intervals through their
refs (`clearInterval(pollingRef.current)`, `clearInterval(timeRef.current)`). -/
def bpCleanup (s : BPState) : BPState :=
  { s with timers := clearTimer (clearTimer s.timers s.pollingRef) s.timeRef,
           pollingRef := none,
           timeRef := none }

/-- The top-level branch of the render: `if (!batchId)` shows the
no-active-batch card, otherwise the tracking card. -/
inductive BPView
  | noActiveBatch
  | tracking
deriving DecidableEq

/-- View selection of the batch-progress page. -/
def bpView (s : BPState) : BPView :=
  if truthyStr s.batchId then .tracking else .noActiveBatch

/-- Destination of the `Start New Batch` link in the no-active-batch card. -/
def noActiveBatchLink : String := "/enrichment"

/-- Percentage text rendered next to `Progress`:
`{batchStatus.progress_percent}%`, verbatim. -/
def bpPercentText (st : BatchStatus) : String :=
  toString st.progress_percent ++ "%"

/-- Width (in percent) of the inner progress-bar div on the batch-progress
page: `width: progress_percent%`, verbatim. -/
def bpBarWidthPercent (st : BatchStatus) : Int :=
  st.progress_percent

/-- Width (in percent) of the inner progress-bar div on the enrichment
page: likewise the raw `progress_percent`. -/
def enBarWidthPercent (st : BatchStatus) : Int :=
  st.progress_percent

/-- Modelled from the spec: the clamped percentage the spec says the
Presenter renders (clamped to the interval from 0 to 100).  Kept separate
from the source-derived render functions so the two can be compared. -/
def specClampedPercent (p : Int) : Int :=
  max 0 (min 100 p)

/-! ## The enrichment page (`src/app/enrichment/page.tsx`) -/

/-- Outcome of one submission request as `submitBatch` observes it: a
parsed JSON body (with the HTTP ok flag, which the source never reads, and
the optional `batch_id` field), or a thrown fetch/parse error. -/
inductive SubmitOutcome
  | parsed (httpOk : Bool) (batch_id : Option String)
  | thrown
deriving DecidableEq

/-- State of one mounted enrichment page: the React state hooks relevant to
the tracking subsystem, the polling ref, live timers, and the (never
touched by this page) persisted store. -/
structure ENState where
  selectedDomains : List String
  batchSize : Nat
  batchId : Option String
  batchStatus : Option BatchStatus
  isPolling : Bool
  isLoading : Bool
  error : Option String
  pollingRef : Option Nat
  timers : List Nat
  nextTimer : Nat
  store : Option String
deriving DecidableEq

/-- Body of the submission POST built by `submitBatch`: exactly the
selected domains and the batch size, nothing else. -/
structure SubmitBody where
  domains : List String
  batch_size : Nat
deriving DecidableEq

/-- The request body `submitBatch` serializes. -/
def submitBody (s : ENState) : SubmitBody :=
  { domains := s.selectedDomains, batch_size := s.batchSize }

/-- The synchronous part of the enrichment `startPolling`: set `isPolling`,
allocate a fresh interval and point `pollingRef` at it.  The immediate
`poll()` is applied as a separate `enPoll` event. -/
def enStartPolling (s : ENState) : ENState :=
  { s with isPolling := true,
           pollingRef := some s.nextTimer,
           timers := s.nextTimer :: s.timers,
           nextTimer := s.nextTimer + 1 }

/-- The failure classification `submitBatch` actually applies: an
invocation fails exactly when the parsed body lacks a truthy `batch_id`,
or the fetch/parse threw.  The HTTP ok flag is never consulted. -/
def submitFails : SubmitOutcome → Bool
  | .parsed _ bid => !(truthyStr bid)
  | .thrown => true

/-- One completed run of `submitBatch` with network outcome `o`.  Returns
the new state and the number of submission requests issued.  Mirrors the
source: early return on an empty selection; otherwise reset `error` and
`batchStatus`, issue exactly one POST, and on a truthy `batch_id` set
`batchId` and start polling, otherwise set the inline error; a thrown
fetch sets its own error; `finally` clears `isLoading`. -/
def submitBatch (s : ENState) (o : SubmitOutcome) : ENState × Nat :=
  if s.selectedDomains = [] then (s, 0)
  else
    let s1 := { s with error := none, batchStatus := none }
    let s2 :=
      match o with
      | .parsed _ bid =>
        if truthyStr bid then
          enStartPolling { s1 with batchId := bid }
        else
          { s1 with error := some "Failed to start batch" }
      | .thrown => { s1 with error := some "Failed to submit batch" }
    ({ s2 with isLoading := false }, 1)

/-- One completed run of the enrichment `poll` callback.  Mirrors the
source: a parsed response replaces the snapshot and, when terminal, resets
`isPolling` and clears the interval; there is no `res.ok` check; a thrown
fetch/parse is only logged (`console.error`) and changes nothing.  The
store is never touched. -/
def enPoll (s : ENState) (o : PollOutcome) : ENState :=
  match o with
  | .ok data =>
    let s1 := { s with batchStatus := some data }
    if isTerminal data.status then
      { s1 with isPolling := false,
                timers := clearTimer s1.timers s1.pollingRef,
                pollingRef := none }
    else
      s1
  | .fail _ => s

/-- Page teardown: the unmount cleanup clears the polling interval through
its ref. -/
def enCleanup (s : ENState) : ENState :=
  { s with timers := clearTimer s.timers s.pollingRef,
           pollingRef := none }

/-- Initial enrichment page state right after mount (batch size defaults
to 200; no selection, no batch, no timers).  The store holds whatever the
browser already had. -/
def enInit (store : Option String) : ENState :=
  { selectedDomains := [], batchSize := 200, batchId := none,
    batchStatus := none, isPolling := false, isLoading := false,
    error := none, pollingRef := none, timers := [], nextTimer := 0,
    store := store }

/-- The batch-size options offered by the select control on the enrichment
page. -/
def batchSizeOptions : List Nat := [50, 100, 200, 500]

/-! ## Reachable executions

The poll callbacks only run while their interval is live (or as the
immediate call right after `startPolling`, at which point the ref is
already assigned, since the assignment happens synchronously before the
async callback's continuation resumes).  `submitBatch` only runs from the
submit button, which is disabled while `isLoading` or `isPolling`.  UI
handlers (domain selection, CSV load, batch-size select, pending-count
fetch) may change the form fields, the loading flag and the error message
arbitrarily, but never touch timers. -/

/-- States a batch-progress page can be in after mounting as `init`,
under any sequence of poll outcomes and elapsed-time ticks. -/
inductive BPReachFrom (init : BPState) : BPState → Prop
  | base : BPReachFrom init init
  | poll (s : BPState) (o : PollOutcome) : BPReachFrom init s →
      s.pollingRef.isSome = true → BPReachFrom init (bpPoll s o)
  | tick (s : BPState) (now : Nat) : BPReachFrom init s →
      BPReachFrom init (bpUpdateElapsed s now)

/-- States some batch-progress page instance can reach. -/
def BPReach (s : BPState) : Prop :=
  ∃ store apiUrl mountTime, BPReachFrom (bpMount store apiUrl mountTime) s

/-- States an enrichment page instance can reach. -/
inductive ENReach : ENState → Prop
  | init (store : Option String) : ENReach (enInit store)
  | ui (s : ENState) (sel : List String) (bsize : Nat) (load : Bool)
      (err : Option String) : ENReach s →
      ENReach { s with selectedDomains := sel, batchSize := bsize,
                       isLoading := load, error := err }
  | submit (s : ENState) (o : SubmitOutcome) : ENReach s →
      s.isPolling = false → s.isLoading = false →
      ENReach (submitBatch s o).1
  | poll (s : ENState) (o : PollOutcome) : ENReach s →
      s.pollingRef.isSome = true → ENReach (enPoll s o)

/-! ## Invariants and concrete inputs -/

/-- Timer bookkeeping on the batch-progress page: the live intervals are
exactly the ones the two refs hold, and the two refs never alias. -/
def bpTimerInv (s : BPState) : Prop :=
  s.timers = s.timeRef.toList ++ s.pollingRef.toList ∧
  ∀ a b, s.timeRef = some a → s.pollingRef = some b → a ≠ b

/-- Timer bookkeeping on the enrichment page: the live intervals are
exactly the one the polling ref holds, and `isPolling` tracks whether a
session is active. -/
def enTimerInv (s : ENState) : Prop :=
  s.timers = s.pollingRef.toList ∧ s.isPolling = s.pollingRef.isSome

/-- A completed snapshot, used as a concrete input. -/
def terminalSnapshot : BatchStatus :=
  { status := .completed, progress_percent := 100, processed_domains := 200,
    total_domains := 200, similar_companies_found := some 34,
    errorCount := some 0 }

/-- A mid-run processing snapshot, used as a concrete input. -/
def processingSnapshot : BatchStatus :=
  { status := .processing, progress_percent := 10, processed_domains := 20,
    total_domains := 200 }

/-- A processing snapshot whose reported percentage lies outside the
interval from 0 to 100, used as a concrete input. -/
def outOfRangeSnapshot : BatchStatus :=
  { status := .processing, progress_percent := 150, processed_domains := 20,
    total_domains := 200 }

/-- An enrichment page with one selected domain, ready to submit. -/
def enReadyState : ENState :=
  { enInit none with selectedDomains := ["acme.com"] }

/-- An enrichment page with an active polling session for a submitted
batch, while the browser store still holds a previously persisted handle. -/
def enActiveState : ENState :=
  enStartPolling { enReadyState with store := some "abc123", batchId := some "b1" }

/-- A batch-progress page freshly mounted at time 0 with a stored handle
and a configured API URL; its polling session is active. -/
def bpActiveState : BPState :=
  bpMount (some "abc123") (some "api") 0

/-- An enrichment page state with a batch size outside the documented
bound of 1 to 500, fed directly to the Submission Controller. -/
def enOversizeState : ENState :=
  { enReadyState with batchSize := 501 }

/-! ## Timer bookkeeping lemmas -/

theorem bpTimerInv_mount (store apiUrl : Option String) (t : Nat) :
    bpTimerInv (bpMount store apiUrl t) := by
  cases store with
  | none => simp [bpMount, bpUpdateElapsed, bpTimerInv]
  | some id =>
    by_cases h : id = "" <;>
      simp [bpMount, bpUpdateElapsed, bpStartPolling, bpTimerInv, h]

theorem bpTimerInv_poll (s : BPState) (o : PollOutcome) (h : bpTimerInv s) :
    bpTimerInv (bpPoll s o) := by
  obtain ⟨ht, hd⟩ := h
  unfold bpPoll
  by_cases ha : s.apiUrl.isNone
  · simpa [ha, bpTimerInv] using ⟨ht, hd⟩
  · simp only [ha, if_false]
    cases o with
    | fail err => simpa [bpTimerInv] using ⟨ht, hd⟩
    | ok data =>
      by_cases hterm : isTerminal data.status
      · simp only [hterm, if_true, bpTimerInv]
        refine ⟨?_, by intro a b h1 h2; cases h2⟩
        cases hp : s.pollingRef with
        | none => rw [ht, hp]; simp [clearTimer]
        | some tp =>
          rw [ht, hp]
          cases htr : s.timeRef with
          | none => simp [clearTimer]
          | some ta =>
            have hne : ta ≠ tp := hd ta tp htr hp
            simp [clearTimer, List.erase_cons, hne]
      · simpa [hterm, bpTimerInv] using ⟨ht, hd⟩

theorem bpTimerInv_tick (s : BPState) (now : Nat) (h : bpTimerInv s) :
    bpTimerInv (bpUpdateElapsed s now) := by
  simpa [bpUpdateElapsed, bpTimerInv] using h

theorem bpTimerInv_reach (init s : BPState) (hinit : bpTimerInv init)
    (h : BPReachFrom init s) : bpTimerInv s := by
  induction h with
  | base => exact hinit
  | poll s o _ _ ih => exact bpTimerInv_poll s o ih
  | tick s now _ ih => exact bpTimerInv_tick s now ih

theorem bpCleanup_timers_nil (s : BPState) (h : bpTimerInv s) :
    (bpCleanup s).timers = [] := by
  obtain ⟨ht, hd⟩ := h
  unfold bpCleanup
  simp only []
  rw [ht]
  cases hp : s.pollingRef with
  | none =>
    cases htr : s.timeRef with
    | none => simp [clearTimer]
    | some ta => simp [clearTimer]
  | some tp =>
    cases htr : s.timeRef with
    | none => simp [clearTimer]
    | some ta =>
      have hne : ta ≠ tp := hd ta tp htr hp
      simp [clearTimer, List.erase_cons, hne]

theorem enTimerInv_init (store : Option String) : enTimerInv (enInit store) := by
  simp [enInit, enTimerInv]

theorem enTimerInv_submit (s : ENState) (o : SubmitOutcome) (h : enTimerInv s)
    (hp : s.isPolling = false) : enTimerInv (submitBatch s o).1 := by
  obtain ⟨ht, hi⟩ := h
  have hnone : s.pollingRef = none := by
    cases href : s.pollingRef with
    | none => rfl
    | some t => rw [href] at hi; rw [hi] at hp; simp at hp
  unfold submitBatch
  by_cases hsel : s.selectedDomains = []
  · simpa [hsel, enTimerInv] using ⟨ht, hi⟩
  · simp only [hsel, if_false]
    cases o with
    | thrown => simpa [enTimerInv] using ⟨ht, hi⟩
    | parsed httpOk bid =>
      by_cases hb : truthyStr bid = true
      · simp [hb, enStartPolling, enTimerInv, ht, hnone]
      · simp only [Bool.not_eq_true] at hb
        simpa [hb, enTimerInv] using ⟨ht, hi⟩

theorem enTimerInv_poll (s : ENState) (o : PollOutcome) (h : enTimerInv s) :
    enTimerInv (enPoll s o) := by
  obtain ⟨ht, hi⟩ := h
  unfold enPoll
  cases o with
  | fail err => exact ⟨ht, hi⟩
  | ok data =>
    by_cases hterm : isTerminal data.status
    · simp only [hterm, if_true, enTimerInv]
      refine ⟨?_, by simp⟩
      rw [ht]
      cases hp : s.pollingRef with
      | none => simp [clearTimer]
      | some t => simp [clearTimer]
    · simpa [hterm, enTimerInv] using ⟨ht, hi⟩

theorem enTimerInv_reach (s : ENState) (h : ENReach s) : enTimerInv s := by
  induction h with
  | init store => exact enTimerInv_init store
  | ui s sel bsize load err _ ih =>
    obtain ⟨ht, hi⟩ := ih
    exact ⟨ht, hi⟩
  | submit s o _ hp _ ih => exact enTimerInv_submit s o ih hp
  | poll s o _ _ ih => exact enTimerInv_poll s o ih

theorem enCleanup_timers_nil (s : ENState) (h : enTimerInv s) :
    (enCleanup s).timers = [] := by
  obtain ⟨ht, _⟩ := h
  unfold enCleanup
  simp only []
  rw [ht]
  cases hp : s.pollingRef with
  | none => simp [clearTimer]
  | some t => simp [clearTimer]

/-! ## Claim theorems -/

/-- C1 counterexample: the enrichment poller, applying a completed (terminal)
snapshot while the Job Handle Store holds a handle, stops its schedule but
leaves the store untouched — the claim that a running poller clears the Job
Handle Store on every terminal snapshot is false for this poller. -/
theorem c1_counterexample :
    (enPoll enActiveState (.ok terminalSnapshot)).isPolling = false ∧
    (enPoll enActiveState (.ok terminalSnapshot)).pollingRef = none ∧
    (enPoll enActiveState (.ok terminalSnapshot)).store = some "abc123" ∧
    (enPoll enActiveState (.ok terminalSnapshot)).store ≠ none := by decide

/-- C1 (corrected): a snapshot applied by the batch-progress poller stops
the repeating schedule and clears the Job Handle Store exactly when its
status is terminal (completed, completed_with_errors, error), and on
pending or processing leaves the interval — hence the next scheduled poll —
and the store unchanged; the enrichment poller likewise stops its schedule
exactly when the status is terminal, but it never clears the store. -/
theorem c1_terminal_stops_and_clears (s : BPState) (e : ENState)
    (d : BatchStatus) (h : s.apiUrl.isSome = true) :
    (bpPoll s (.ok d)).store = (if isTerminal d.status then none else s.store) ∧
    (bpPoll s (.ok d)).pollingRef =
      (if isTerminal d.status then none else s.pollingRef) ∧
    (bpPoll s (.ok d)).timers =
      (if isTerminal d.status then clearTimer s.timers s.pollingRef
       else s.timers) ∧
    (enPoll e (.ok d)).pollingRef =
      (if isTerminal d.status then none else e.pollingRef) ∧
    (enPoll e (.ok d)).store = e.store := by
  have hn : s.apiUrl.isNone = false := by
    cases ha : s.apiUrl
    · rw [ha] at h; simp at h
    · simp
  by_cases hterm : isTerminal d.status <;>
    simp [bpPoll, enPoll, hn, hterm]

/-- C1 witness: the corrected theorem applied at a freshly mounted
batch-progress page, an active enrichment page and the completed snapshot. -/
theorem c1_witness :
    bpActiveState.apiUrl.isSome = true ∧
    ((bpPoll bpActiveState (.ok terminalSnapshot)).store =
        (if isTerminal terminalSnapshot.status then none
         else bpActiveState.store) ∧
      (bpPoll bpActiveState (.ok terminalSnapshot)).pollingRef =
        (if isTerminal terminalSnapshot.status then none
         else bpActiveState.pollingRef) ∧
      (bpPoll bpActiveState (.ok terminalSnapshot)).timers =
        (if isTerminal terminalSnapshot.status then
          clearTimer bpActiveState.timers bpActiveState.pollingRef
         else bpActiveState.timers) ∧
      (enPoll enActiveState (.ok terminalSnapshot)).pollingRef =
        (if isTerminal terminalSnapshot.status then none
         else enActiveState.pollingRef) ∧
      (enPoll enActiveState (.ok terminalSnapshot)).store =
        enActiveState.store) :=
  ⟨by decide,
   c1_terminal_stops_and_clears bpActiveState enActiveState terminalSnapshot
     (by decide)⟩

/-- C2 counterexample: invoking the enrichment page's startPolling a second
time while a session is already active leaves two live repeating timers,
not one — the start operation is not idempotent. -/
theorem c2_counterexample :
    (enStartPolling (enStartPolling (enInit none))).timers.length = 2 ∧
    (enStartPolling (enStartPolling (enInit none))).timers.length ≠ 1 := by
  decide

/-- C2 (corrected): startPolling is not idempotent — every invocation, on
either page, allocates one fresh interval and repoints the ref at it, so a
second start while a session is active leaves two competing timers of which
only the newer remains reachable through the ref; the pages however never
invoke it while a session is active, so in every reachable enrichment page
state the live polling timers are exactly the one the ref holds. -/
theorem c2_start_allocates_each_time :
    (∀ e : ENState, (enStartPolling e).timers = e.nextTimer :: e.timers ∧
      (enStartPolling e).pollingRef = some e.nextTimer) ∧
    (∀ s : BPState, (bpStartPolling s).timers = s.nextTimer :: s.timers ∧
      (bpStartPolling s).pollingRef = some s.nextTimer) ∧
    (∀ e : ENState, ENReach e → e.timers = e.pollingRef.toList) :=
  ⟨fun _ => ⟨rfl, rfl⟩, fun _ => ⟨rfl, rfl⟩,
   fun e h => (enTimerInv_reach e h).1⟩

/-- C2 witness: the corrected theorem applied at the freshly mounted
enrichment page, whose reachability discharges the hypothesis. -/
theorem c2_witness :
    ENReach (enInit none) ∧
    (enInit none).timers = (enInit none).pollingRef.toList :=
  ⟨ENReach.init none,
   c2_start_allocates_each_time.2.2 (enInit none) (ENReach.init none)⟩

/-- C3 counterexample: a submission whose HTTP status is an error (ok flag
false) but whose body still carries a batch_id is treated as a success —
no error is surfaced, the handle lands in component state and a polling
session starts — because submitBatch never consults the HTTP status. -/
theorem c3_counterexample :
    (submitBatch enReadyState (.parsed false (some "b9"))).1.error = none ∧
    (submitBatch enReadyState (.parsed false (some "b9"))).1.batchId =
      some "b9" ∧
    (submitBatch enReadyState (.parsed false (some "b9"))).1.isPolling = true ∧
    (submitBatch enReadyState (.parsed false (some "b9"))).2 = 1 := by decide

/-- C3 (corrected): submitBatch classifies an invocation as failed exactly
when the parsed body lacks a truthy batch_id or the request/parse throws —
the HTTP status is never consulted.  Every invocation with a nonempty
selection issues exactly one submission request with no retry, and on
failure it surfaces a user-visible error while storing no handle, starting
no polling session, adding no timer and leaving the store untouched. -/
theorem c3_submission_failure_no_mutation (s : ENState) (o : SubmitOutcome)
    (h : s.selectedDomains ≠ []) :
    (submitBatch s o).2 = 1 ∧
    (submitFails o = true →
      (submitBatch s o).1.error.isSome = true ∧
      (submitBatch s o).1.batchId = s.batchId ∧
      (submitBatch s o).1.isPolling = s.isPolling ∧
      (submitBatch s o).1.timers = s.timers ∧
      (submitBatch s o).1.pollingRef = s.pollingRef ∧
      (submitBatch s o).1.store = s.store) := by
  unfold submitBatch
  cases o with
  | thrown => simp [h, submitFails]
  | parsed httpOk bid =>
    by_cases hb : truthyStr bid = true
    · simp [h, hb, submitFails]
    · simp only [Bool.not_eq_true] at hb
      simp [h, hb, submitFails]

/-- C3 witness: the corrected theorem applied at the ready-to-submit
enrichment page with a thrown network request. -/
theorem c3_witness :
    enReadyState.selectedDomains ≠ [] ∧
    ((submitBatch enReadyState .thrown).2 = 1 ∧
      (submitFails .thrown = true →
        (submitBatch enReadyState .thrown).1.error.isSome = true ∧
        (submitBatch enReadyState .thrown).1.batchId = enReadyState.batchId ∧
        (submitBatch enReadyState .thrown).1.isPolling =
          enReadyState.isPolling ∧
        (submitBatch enReadyState .thrown).1.timers = enReadyState.timers ∧
        (submitBatch enReadyState .thrown).1.pollingRef =
          enReadyState.pollingRef ∧
        (submitBatch enReadyState .thrown).1.store = enReadyState.store)) :=
  ⟨by decide, c3_submission_failure_no_mutation enReadyState .thrown (by decide)⟩

/-- C4 (code_bug): a successful submission (the response carries batch_id
abc123) returns the handle into component state and starts the poller, but
never persists it — the Job Handle Store stays empty, so a later
batch-progress mount reads no handle and renders the no-active-batch view.
This contradicts docs/updates/update.md, which records that on a successful
batch start the batch_id is stored in localStorage under activeBatchId and
that tracking is handed to the dedicated progress page. -/
theorem c4_success_does_not_persist_handle :
    (submitBatch enReadyState (.parsed true (some "abc123"))).1.batchId =
      some "abc123" ∧
    (submitBatch enReadyState (.parsed true (some "abc123"))).1.isPolling =
      true ∧
    (submitBatch enReadyState (.parsed true (some "abc123"))).1.store =
      none ∧
    bpView (bpMount none (some "api") 0) = BPView.noActiveBatch := by decide

/-- C5 counterexample: on the batch-progress page a single failed poll is
not only logged — it sets the inline error state, which renders as a
user-visible error banner, contradicting the claim that no user-facing
error is surfaced; the schedule itself does continue. -/
theorem c5_counterexample :
    (bpPoll bpActiveState (.fail "TypeError")).error =
      some "Failed to fetch batch status: TypeError" ∧
    (bpPoll bpActiveState (.fail "TypeError")).error ≠ none ∧
    (bpPoll bpActiveState (.fail "TypeError")).timers =
      bpActiveState.timers := by decide

/-- C5 (corrected): a single failed poll never stops the repeating schedule
on either page — interval, ref, store and snapshot are unchanged and the
next successful poll's data is still applied at the same cadence; the
enrichment poller only logs the failure and changes nothing at all, while
the batch-progress poller additionally surfaces a non-fatal inline error
message. -/
theorem c5_failed_poll_continues (s : BPState) (e : ENState) (msg : String)
    (d : BatchStatus) (h : s.apiUrl.isSome = true) :
    (bpPoll s (.fail msg)).timers = s.timers ∧
    (bpPoll s (.fail msg)).pollingRef = s.pollingRef ∧
    (bpPoll s (.fail msg)).store = s.store ∧
    (bpPoll s (.fail msg)).batchStatus = s.batchStatus ∧
    (bpPoll s (.fail msg)).error =
      some ("Failed to fetch batch status: " ++ msg) ∧
    (bpPoll (bpPoll s (.fail msg)) (.ok d)).batchStatus = some d ∧
    enPoll e (.fail msg) = e := by
  have hn : s.apiUrl.isNone = false := by
    cases ha : s.apiUrl
    · rw [ha] at h; simp at h
    · simp
  by_cases hterm : isTerminal d.status <;>
    simp [bpPoll, enPoll, hn, hterm]

/-- C5 witness: the corrected theorem applied at the freshly mounted
batch-progress page, the active enrichment page, a concrete thrown error
and the processing snapshot. -/
theorem c5_witness :
    bpActiveState.apiUrl.isSome = true ∧
    ((bpPoll bpActiveState (.fail "TypeError")).timers =
        bpActiveState.timers ∧
      (bpPoll bpActiveState (.fail "TypeError")).pollingRef =
        bpActiveState.pollingRef ∧
      (bpPoll bpActiveState (.fail "TypeError")).store =
        bpActiveState.store ∧
      (bpPoll bpActiveState (.fail "TypeError")).batchStatus =
        bpActiveState.batchStatus ∧
      (bpPoll bpActiveState (.fail "TypeError")).error =
        some ("Failed to fetch batch status: " ++ "TypeError") ∧
      (bpPoll (bpPoll bpActiveState (.fail "TypeError"))
          (.ok processingSnapshot)).batchStatus = some processingSnapshot ∧
      enPoll enActiveState (.fail "TypeError") = enActiveState) :=
  ⟨by decide,
   c5_failed_poll_continues bpActiveState enActiveState "TypeError"
     processingSnapshot (by decide)⟩

/-- C6 (confirmed): tearing down a page with an active polling session
cancels its timers unconditionally — in every reachable state of the
batch-progress page and of the enrichment page, the unmount cleanup leaves
zero pending timers, whether or not a terminal state was ever reached. -/
theorem c6_teardown_leaves_no_timers :
    (∀ s : BPState, BPReach s → (bpCleanup s).timers = []) ∧
    (∀ e : ENState, ENReach e → (enCleanup e).timers = []) := by
  constructor
  · rintro s ⟨store, apiUrl, mountTime, h⟩
    exact bpCleanup_timers_nil s
      (bpTimerInv_reach _ s (bpTimerInv_mount store apiUrl mountTime) h)
  · intro e h
    exact enCleanup_timers_nil e (enTimerInv_reach e h)

/-- C6 witness: the theorem applied at an actively polling batch-progress
page mounted with a stored handle, and at a freshly mounted enrichment
page. -/
theorem c6_witness :
    BPReach bpActiveState ∧ (bpCleanup bpActiveState).timers = [] ∧
    ENReach (enInit none) ∧ (enCleanup (enInit none)).timers = [] :=
  ⟨⟨some "abc123", some "api", 0, BPReachFrom.base⟩,
   c6_teardown_leaves_no_timers.1 bpActiveState
     ⟨some "abc123", some "api", 0, BPReachFrom.base⟩,
   ENReach.init none,
   c6_teardown_leaves_no_timers.2 (enInit none) (ENReach.init none)⟩

/-- C7 counterexample: a snapshot reporting 150 percent is rendered
verbatim — the percentage text and both progress-bar widths are 150, not
the clamped 100 the claim requires. -/
theorem c7_counterexample :
    bpPercentText outOfRangeSnapshot = "150%" ∧
    bpBarWidthPercent outOfRangeSnapshot = 150 ∧
    enBarWidthPercent outOfRangeSnapshot = 150 ∧
    specClampedPercent outOfRangeSnapshot.progress_percent = 100 ∧
    bpBarWidthPercent outOfRangeSnapshot ≠
      specClampedPercent outOfRangeSnapshot.progress_percent := by decide

/-- C7 (corrected): the Presenter applies no clamping — the rendered
percentage text and both progress-bar widths are the raw progress_percent,
and they agree with the spec's clamped value exactly when the backend
already reports a value between 0 and 100. -/
theorem c7_percent_rendered_unclamped (st : BatchStatus) :
    bpPercentText st = toString st.progress_percent ++ "%" ∧
    bpBarWidthPercent st = st.progress_percent ∧
    enBarWidthPercent st = st.progress_percent ∧
    (bpBarWidthPercent st = specClampedPercent st.progress_percent ↔
      0 ≤ st.progress_percent ∧ st.progress_percent ≤ 100) := by
  refine ⟨rfl, rfl, rfl, ?_⟩
  unfold bpBarWidthPercent specClampedPercent
  omega

/-- C8 counterexample: fed a batch size of 501 — outside the documented
bound of 1 to 500 — the Submission Controller surfaces no inline violation
and still issues the network request; no validation exists. -/
theorem c8_counterexample :
    (submitBatch enOversizeState (.parsed true (some "b1"))).2 = 1 ∧
    (submitBatch enOversizeState (.parsed true (some "b1"))).1.error =
      none ∧
    submitBody enOversizeState =
      { domains := ["acme.com"], batch_size := 501 } ∧
    ¬(1 ≤ (submitBody enOversizeState).batch_size ∧
      (submitBody enOversizeState).batch_size ≤ 500) := by decide

/-- C8 (corrected): the Submission Controller validates nothing — for
every state with a nonempty selection it issues exactly one request
whatever the batch size, and the request body carries only the selected
domains and the batch size (no weighting scalar and no region code exist
anywhere in the submission); the only bound on the batch size is the
page's select control, whose options all lie between 1 and 500. -/
theorem c8_no_validation_before_request (s : ENState) (o : SubmitOutcome)
    (h : s.selectedDomains ≠ []) :
    (submitBatch s o).2 = 1 ∧
    submitBody s =
      { domains := s.selectedDomains, batch_size := s.batchSize } ∧
    ∀ n ∈ batchSizeOptions, 1 ≤ n ∧ n ≤ 500 := by
  refine ⟨?_, rfl, by decide⟩
  unfold submitBatch
  cases o with
  | thrown => simp [h]
  | parsed httpOk bid =>
    by_cases hb : truthyStr bid = true
    · simp [h, hb]
    · simp only [Bool.not_eq_true] at hb
      simp [h, hb]

/-- C8 witness: the corrected theorem applied at the enrichment page whose
batch size is 501. -/
theorem c8_witness :
    enOversizeState.selectedDomains ≠ [] ∧
    ((submitBatch enOversizeState .thrown).2 = 1 ∧
      submitBody enOversizeState =
        { domains := enOversizeState.selectedDomains,
          batch_size := enOversizeState.batchSize } ∧
      ∀ n ∈ batchSizeOptions, 1 ≤ n ∧ n ≤ 500) :=
  ⟨by decide,
   c8_no_validation_before_request enOversizeState .thrown (by decide)⟩

/-- C9 counterexample: a job submitted at time 0 whose progress page mounts
at 120000 milliseconds shows an elapsed time computed from the mount
instant — 5 seconds ago at time 125000 — not from the submission
timestamp, which would give 2 minutes ago. -/
theorem c9_counterexample :
    (bpMount (some "abc123") (some "api") 120000).startTime = 120000 ∧
    formatElapsed (bpMount (some "abc123") (some "api") 120000).startTime
      125000 = "5 seconds ago" ∧
    formatElapsed 0 125000 = "2 minutes ago" ∧
    formatElapsed (bpMount (some "abc123") (some "api") 120000).startTime
        125000 ≠ formatElapsed 0 125000 := by decide

/-- C9 (corrected): the elapsed-time string is derived from the
batch-progress page's own mount instant, captured into startTime at first
render, not from the job's submission timestamp; it is recomputed on a
dedicated one-second interval distinct from the polling interval, and no
poll outcome ever affects the start instant, the tick interval or the
resulting string — the display advances independently of poll success. -/
theorem c9_elapsed_from_mount_independent_of_polls
    (store apiUrl : Option String) (mountTime : Nat) (s : BPState)
    (o : PollOutcome) (now : Nat) :
    (bpMount store apiUrl mountTime).startTime = mountTime ∧
    (bpMount store apiUrl mountTime).timeRef.isSome = true ∧
    (bpMount store apiUrl mountTime).timeRef ≠
      (bpMount store apiUrl mountTime).pollingRef ∧
    (bpPoll s o).startTime = s.startTime ∧
    (bpPoll s o).timeRef = s.timeRef ∧
    (bpUpdateElapsed (bpPoll s o) now).elapsedTime =
      (bpUpdateElapsed s now).elapsedTime := by
  have hst : (bpPoll s o).startTime = s.startTime := by
    unfold bpPoll
    by_cases ha : s.apiUrl.isNone
    · simp [ha]
    · cases o with
      | fail err => simp [ha]
      | ok data =>
        by_cases hterm : isTerminal data.status <;> simp [ha, hterm]
  have htr : (bpPoll s o).timeRef = s.timeRef := by
    unfold bpPoll
    by_cases ha : s.apiUrl.isNone
    · simp [ha]
    · cases o with
      | fail err => simp [ha]
      | ok data =>
        by_cases hterm : isTerminal data.status <;> simp [ha, hterm]
  refine ⟨?_, ?_, ?_, hst, htr, by simp [bpUpdateElapsed, hst]⟩
  · cases store with
    | none => simp [bpMount, bpUpdateElapsed]
    | some id =>
      by_cases h : id = "" <;>
        simp [bpMount, bpUpdateElapsed, bpStartPolling, h]
  · cases store with
    | none => simp [bpMount, bpUpdateElapsed]
    | some id =>
      by_cases h : id = "" <;>
        simp [bpMount, bpUpdateElapsed, bpStartPolling, h]
  · cases store with
    | none => simp [bpMount, bpUpdateElapsed]
    | some id =>
      by_cases h : id = "" <;>
        simp [bpMount, bpUpdateElapsed, bpStartPolling, h]

/-- C10 (confirmed): when the Job Handle Store holds no handle at mount,
every state the batch-progress page can subsequently reach has no polling
session, zero status requests issued, no batch id and no error, and it
renders the no-active-batch view, whose link leads back to the enrichment
page to start a new batch. -/
theorem c10_no_handle_no_polling (apiUrl : Option String) (mountTime : Nat)
    (s : BPState) (h : BPReachFrom (bpMount none apiUrl mountTime) s) :
    s.pollingRef = none ∧ s.statusRequests = 0 ∧ s.batchId = none ∧
    s.error = none ∧ bpView s = BPView.noActiveBatch ∧
    noActiveBatchLink = "/enrichment" := by
  induction h with
  | base =>
    refine ⟨?_, ?_, ?_, ?_, ?_, rfl⟩ <;>
      simp [bpMount, bpUpdateElapsed, bpView, truthyStr]
  | poll s o hr hp ih =>
    exact absurd hp (by rw [ih.1]; simp)
  | tick s now hr ih =>
    obtain ⟨h1, h2, h3, h4, h5, _⟩ := ih
    exact ⟨h1, h2, h3, h4,
      by simpa [bpUpdateElapsed, bpView] using h5, rfl⟩

/-- C10 witness: the theorem applied at the state right after mounting with
an empty store. -/
theorem c10_witness :
    BPReachFrom (bpMount none (some "api") 0) (bpMount none (some "api") 0) ∧
    ((bpMount none (some "api") 0).pollingRef = none ∧
      (bpMount none (some "api") 0).statusRequests = 0 ∧
      (bpMount none (some "api") 0).batchId = none ∧
      (bpMount none (some "api") 0).error = none ∧
      bpView (bpMount none (some "api") 0) = BPView.noActiveBatch ∧
      noActiveBatchLink = "/enrichment") :=
  ⟨BPReachFrom.base,
   c10_no_handle_no_polling (some "api") 0 _ BPReachFrom.base⟩

end BatchTracking
